import Mathlib

/-!
Verification of the getcreds client (cmd/getcreds/main.go).

Shallow embedding of the enrollment and failover logic.  Go functions are
translated into pure Lean functions; the network is modelled as a function
from outgoing HTTP requests to results (a transport error or a response),
the filesystem side effects of key generation as an explicit list of
filesystem operations, and the top-level program as a function from an
environment (configuration source, credentials, key generation outcome,
network, final-write outcome) to a terminal outcome plus an event trace.

Go errors are modelled as Option String (none = nil error).  Byte slices
(certificates, request bodies) are modelled as String; nil slices map to
none of Option String.
-/

/-- A session cookie as returned by the login endpoint (net/http Cookie,
restricted to the fields the client reads). -/
structure Cookie where
  name : String
  value : String
deriving DecidableEq, Repr

/-- An HTTP response as observed by the client: status code, cookies from
the response header, raw body bytes. -/
structure HttpResponse where
  statusCode : Nat
  cookies : List Cookie
  body : String
deriving DecidableEq, Repr

/-- An outgoing HTTP request.  formFile models the single multipart file
field as (field name, file name, file data); basicAuth models
req.SetBasicAuth as (user, password). -/
structure HttpRequest where
  method : String
  url : String
  contentType : String
  formFile : Option (String × String × String)
  basicAuth : Option (String × String)
  cookies : List Cookie
deriving DecidableEq, Repr

/-- Result of client.Do: either a transport error (err != nil) or a
response. -/
inductive DoResult where
  | transportError (msg : String)
  | response (resp : HttpResponse)
deriving DecidableEq, Repr

/-- The network seen through client.Do: a function from the request the
client builds to the result the client observes. -/
abbrev Network := HttpRequest → DoResult

/-- The generated RSA private key, abstracted to the three encodings the
program derives from it: the PKCS1 PEM of the private key (written to the
private key file), the PKIX PEM of the public key (sent for the x509
request), and the SSH authorized-key line of the public key (written to
the .pub file and sent for the ssh request). -/
structure PrivateKey where
  pkcs1Pem : String
  pkixPem : String
  sshAuthorizedKey : String
deriving DecidableEq, Repr

/-- createKeyBodyRequest (main.go lines 159-193): builds a POST (method is
always "POST" at both call sites) with a multipart body holding exactly
one file field named "pubkeyfile" with file name "somefilename.pub"
carrying filedata.  Request construction cannot fail in the model (the
multipart writer and http.NewRequest error paths are dead for the inputs
the program supplies). -/
def createKeyBodyRequest (method urlStr filedata : String) : HttpRequest :=
  { method := method
    url := urlStr
    contentType := "multipart/form-data"
    formFile := some ("pubkeyfile", "somefilename.pub", filedata)
    basicAuth := none
    cookies := [] }

/-- req.AddCookie for each cookie of a list (main.go lines 202-204). -/
def addCookies (req : HttpRequest) (cs : List Cookie) : HttpRequest :=
  { req with cookies := req.cookies ++ cs }

/-- doCertRequest (main.go lines 195-218).  Returns (body, err) plus the
list of requests actually handed to client.Do.  Note the source's non-200
branch: it logs the status and executes "return nil, err" where err is
the nil error left over from the successful client.Do call, so a non-200
response yields (nil, nil). -/
def doCertRequest (net : Network) (authCookies : List Cookie) (url filedata : String) :
    (Option String × Option String) × List HttpRequest :=
  let req := addCookies (createKeyBodyRequest "POST" url filedata) authCookies
  match net req with
  | DoResult.transportError msg => ((none, some msg), [req])
  | DoResult.response resp =>
    if resp.statusCode ≠ 200 then
      ((none, none), [req])
    else
      ((some resp.body, none), [req])

/-- The login request built in getCertsFromServer (main.go lines 227-233):
POST baseUrl ++ "/api/v0/login" with basic auth, no body. -/
def loginRequest (userName password baseUrl : String) : HttpRequest :=
  { method := "POST"
    url := baseUrl ++ "/api/v0/login"
    contentType := ""
    formFile := none
    basicAuth := some (userName, password)
    cookies := [] }

/-- getCertsFromServer (main.go lines 220-282).  Result is the triple
(sshCert, x509Cert, err) plus the requests issued.  The branches mirror
the source exactly: a login transport error returns that error; a non-200
login status executes "return nil, nil, err" with err still nil (stale
from the successful client.Do), so it returns no error; a cookie-less 200
login returns the "No cookies from login" error; then the x509 certgen
request is made first and any error from it aborts the candidate; then
the ssh certgen request is made. -/
def getCertsFromServer (net : Network) (signer : PrivateKey)
    (userName password baseUrl : String) :
    (Option String × Option String × Option String) × List HttpRequest :=
  let loginReq := loginRequest userName password baseUrl
  match net loginReq with
  | DoResult.transportError msg => ((none, none, some msg), [loginReq])
  | DoResult.response loginResp =>
    if loginResp.statusCode ≠ 200 then
      ((none, none, none), [loginReq])
    else if loginResp.cookies.length < 1 then
      ((none, none, some "No cookies from login"), [loginReq])
    else
      let pemKey := signer.pkixPem
      let x509Res := doCertRequest net loginResp.cookies
        (baseUrl ++ "/certgen/" ++ userName ++ "?type=x509") pemKey
      match x509Res.1.2 with
      | some e => ((none, none, some e), loginReq :: x509Res.2)
      | none =>
        let sshAuthFile := signer.sshAuthorizedKey
        let sshRes := doCertRequest net loginResp.cookies
          (baseUrl ++ "/certgen/" ++ userName ++ "?type=ssh") sshAuthFile
        match sshRes.1.2 with
        | some e => ((none, none, some e), loginReq :: x509Res.2 ++ sshRes.2)
        | none => ((sshRes.1.1, x509Res.1.1, none), loginReq :: x509Res.2 ++ sshRes.2)

/-- Outcome of getCertFromTargetUrls plus instrumentation: requests is the
concatenated list of requests handed to client.Do, tried is the list of
base URLs for which getCertsFromServer was invoked, in order. -/
structure FailoverResult where
  cert : Option String
  err : Option String
  requests : List HttpRequest
  tried : List String
deriving DecidableEq, Repr

/-- getCertFromTargetUrls (main.go lines 284-345).  Iterates the target
URLs in order; an error from getCertsFromServer logs and continues to the
next candidate; a nil error takes the ssh certificate (even when it is
nil, as happens on a non-200 certgen status) and breaks.  If the loop
finishes without success the fixed error "Failed to get creds" is
returned. -/
def getCertFromTargetUrls (net : Network) (signer : PrivateKey)
    (userName password : String) : List String → FailoverResult
  | [] => { cert := none, err := some "Failed to get creds", requests := [], tried := [] }
  | baseUrl :: rest =>
    let attempt := getCertsFromServer net signer userName password baseUrl
    match attempt.1.2.2 with
    | some _ =>
      let r := getCertFromTargetUrls net signer userName password rest
      { cert := r.cert, err := r.err
        requests := attempt.2 ++ r.requests, tried := baseUrl :: r.tried }
    | none =>
      { cert := attempt.1.1, err := none, requests := attempt.2, tried := [baseUrl] }

/-- A filesystem operation performed by the key generator.  create is
os.Create, whose OS-level open mode is 0o666 masked by the process umask;
chmod is File.Chmod; write is a write of bytes to an already-open file
(pem.Encode); writeFile is ioutil.WriteFile with an explicit mode. -/
inductive FsOp where
  | remove (path : String)
  | create (path : String) (mode : Nat)
  | chmod (path : String) (mode : Nat)
  | write (path : String) (data : String)
  | writeFile (path : String) (data : String) (mode : Nat)
deriving DecidableEq, Repr

/-- genKeyPair (main.go lines 54-90).  generated models the outcome of
rsa.GenerateKey (an entropy failure produces no filesystem activity).  On
success the function removes both key files, creates the private key file
(mode 0666 masked by umask, as os.Create does), chmods it to 0600, writes
the PKCS1 PEM into it, and writes the .pub file with mode 0644; it
returns the signer and the public key path.  Failures of the individual
filesystem calls are not modelled (the claims under verification concern
the order and modes of the operations on the successful path). -/
def genKeyPair (generated : Except String PrivateKey) (umask : Nat)
    (privateKeyPath : String) : Except String (PrivateKey × String) × List FsOp :=
  match generated with
  | Except.error e => (Except.error e, [])
  | Except.ok privateKey =>
    let pubKeyPath := privateKeyPath ++ ".pub"
    (Except.ok (privateKey, pubKeyPath),
      [FsOp.remove privateKeyPath,
       FsOp.remove pubKeyPath,
       FsOp.create privateKeyPath (0o666 &&& (0o777 ^^^ umask)),
       FsOp.chmod privateKeyPath 0o600,
       FsOp.write privateKeyPath privateKey.pkcs1Pem,
       FsOp.writeFile pubKeyPath privateKey.sshAuthorizedKey 0o644])

/-- The mode of the file at path after a list of filesystem operations has
run, none when the file does not exist. -/
def applyFsOp (path : String) (mode : Option Nat) (op : FsOp) : Option Nat :=
  match op with
  | FsOp.remove p => if p = path then none else mode
  | FsOp.create p m => if p = path then some m else mode
  | FsOp.chmod p m => if p = path then some m else mode
  | FsOp.write _ _ => mode
  | FsOp.writeFile p _ m => if p = path then some m else mode

/-- Mode of path after running ops from an initially absent file. -/
def modeAfter (path : String) (ops : List FsOp) : Option Nat :=
  ops.foldl (applyFsOp path) none

/-- Does this operation write bytes into the file at path? -/
def isWriteTo (path : String) : FsOp → Bool
  | FsOp.write p _ => p == path
  | FsOp.writeFile p _ _ => p == path
  | _ => false

/-- Have any bytes been written to path by ops? -/
def hasWrittenBytes (path : String) (ops : List FsOp) : Bool :=
  ops.any (isWriteTo path)

/-- A mode whose group-read or world-read bit is set. -/
def groupOrWorldReadable (mode : Nat) : Bool :=
  mode &&& 0o044 != 0

/-- Walks a trace of filesystem operations maintaining the mode of path
and whether bytes have been written to it, and checks that at every point
at which the file holds bytes its mode is exactly 0600. -/
def modeDisciplineFrom (path : String) : Option Nat → Bool → List FsOp → Bool
  | _, _, [] => true
  | mode, written, op :: rest =>
    let mode2 := applyFsOp path mode op
    let written2 := written || isWriteTo path op
    (!written2 || (mode2 == some 0o600)) && modeDisciplineFrom path mode2 written2 rest

/-- modeDisciplineFrom started from an absent, unwritten file. -/
def modeDiscipline (path : String) (ops : List FsOp) : Bool :=
  modeDisciplineFrom path none false ops

/-- strings.Split on a single comma separator, on the character list: the
string is cut at every comma, yielding one piece more than there are
commas; the empty string yields one empty piece. -/
def splitCharsOnComma : List Char → List (List Char)
  | [] => [[]]
  | c :: rest =>
    if c = ',' then [] :: splitCharsOnComma rest
    else
      match splitCharsOnComma rest with
      | [] => [[c]]
      | g :: gs => (c :: g) :: gs

/-- strings.Split(s, ",") as used in main (main.go line 388). -/
def splitOnComma (s : String) : List String :=
  (splitCharsOnComma s.data).map String.mk

/-- The parsed YAML configuration (main.go lines 33-40). -/
structure BaseConfig where
  Gen_Cert_URLS : String
deriving DecidableEq, Repr

/-- The application configuration file contents. -/
structure AppConfigFile where
  Base : BaseConfig
deriving DecidableEq, Repr

/-- What the filesystem and YAML parser yield for the configuration file:
missing file, unreadable file, unparsable content, or parsed content. -/
inductive ConfigSource where
  | missing
  | unreadable
  | unparsable
  | parsed (config : AppConfigFile)
deriving DecidableEq, Repr

/-- loadVerifyConfigFile (main.go lines 92-117): stat failure, read
failure and parse failure produce the corresponding errors; a parsed
config whose Gen_Cert_URLS string is empty (len < 1) is rejected. -/
def loadVerifyConfigFile : ConfigSource → Except String AppConfigFile
  | ConfigSource.missing => Except.error "mising config file failure"
  | ConfigSource.unreadable => Except.error "cannot read config file"
  | ConfigSource.unparsable => Except.error "Cannot parse config file"
  | ConfigSource.parsed config =>
    if config.Base.Gen_Cert_URLS.length < 1 then
      Except.error "Invalid Config file... no place get the certs"
    else
      Except.ok config

/-- A configuration source that is missing, unparsable, or carries an
empty endpoint-URL list. -/
def configBad : ConfigSource → Bool
  | ConfigSource.missing => true
  | ConfigSource.unreadable => true
  | ConfigSource.unparsable => true
  | ConfigSource.parsed config => decide (config.Base.Gen_Cert_URLS.length < 1)

/-- Terminal outcome of the process: panic and log.Fatal exit with
non-zero status, a normal return from main exits with status 0. -/
inductive Outcome where
  | panicked (msg : String)
  | fatal (msg : String)
  | normalExit
deriving DecidableEq, Repr

/-- Does the outcome terminate the process with non-zero status? -/
def isFatalOutcome : Outcome → Bool
  | Outcome.panicked _ => true
  | Outcome.fatal _ => true
  | Outcome.normalExit => false

/-- An externally observable event of a run of main: the key generation
attempt, a filesystem operation, a network request handed to client.Do,
the "Success" log line, and the (ignored) result of the final certificate
write. -/
inductive MainEvent where
  | keyGenAttempt
  | fs (op : FsOp)
  | netRequest (req : HttpRequest)
  | logSuccess
  | writeResult (path : String) (err : Option String)
deriving DecidableEq, Repr

/-- The environment a run of main draws its inputs from: the
configuration source, the outcome of the user/password prompt, the home
directory, the process umask, the outcome of RSA key generation, the
network, and the error (if any) of the final certificate WriteFile. -/
structure MainEnv where
  configSource : ConfigSource
  credsResult : Except String (String × String)
  homeDir : String
  umask : Nat
  keyGen : Except String PrivateKey
  net : Network
  certWriteErr : Option String

/-- main (main.go lines 364-403).  Configuration is loaded first and a
failure panics with no other activity; then user lookup and the password
prompt (a failure is fatal); then the key pair is generated at
filepath.Join(homeDir, "/.ssh/", "fubar") — modelled as string
concatenation, faithful for a clean home directory; then the failover
over the comma-separated URL list; an error or a nil certificate is
fatal; otherwise "Success" is logged, the old certificate file is
removed, and the certificate is written —  the error returned by that
final WriteFile is assigned and never checked, after which main returns
normally (exit status 0). -/
def mainRun (env : MainEnv) : Outcome × List MainEvent :=
  match loadVerifyConfigFile env.configSource with
  | Except.error e => (Outcome.panicked e, [])
  | Except.ok config =>
    match env.credsResult with
    | Except.error e => (Outcome.fatal e, [])
    | Except.ok (userName, password) =>
      let privateKeyPath := env.homeDir ++ "/.ssh/" ++ "fubar"
      let genResult := genKeyPair env.keyGen env.umask privateKeyPath
      let keyEvents := MainEvent.keyGenAttempt :: genResult.2.map MainEvent.fs
      match genResult.1 with
      | Except.error e => (Outcome.fatal e, keyEvents)
      | Except.ok (signer, _pubKeyFilename) =>
        let targetUrls := splitOnComma config.Base.Gen_Cert_URLS
        let fr := getCertFromTargetUrls env.net signer userName password targetUrls
        let netEvents := fr.requests.map MainEvent.netRequest
        match fr.err with
        | some e => (Outcome.fatal e, keyEvents ++ netEvents)
        | none =>
          match fr.cert with
          | none =>
            (Outcome.fatal "Could not get cert from any url", keyEvents ++ netEvents)
          | some certBytes =>
            let certPath := privateKeyPath ++ "-cert.pub"
            (Outcome.normalExit,
              keyEvents ++ netEvents ++
                [MainEvent.logSuccess,
                 MainEvent.fs (FsOp.remove certPath),
                 MainEvent.fs (FsOp.writeFile certPath certBytes 0o644),
                 MainEvent.writeResult certPath env.certWriteErr])

/-- The (path, data) pair of a file-writing event, none otherwise. -/
def writeEntry : MainEvent → Option (String × String)
  | MainEvent.fs (FsOp.write p d) => some (p, d)
  | MainEvent.fs (FsOp.writeFile p d _) => some (p, d)
  | _ => none

/-- All (path, data) pairs written to disk during a trace, in order. -/
def writesOf (events : List MainEvent) : List (String × String) :=
  events.filterMap writeEntry

/-- The ssh certificate obtained from the last tried candidate (the
winning candidate, when the failover ended in success). -/
def lastTriedSsh (net : Network) (signer : PrivateKey)
    (userName password : String) (tried : List String) : Option String :=
  match tried.getLast? with
  | none => none
  | some winner => (getCertsFromServer net signer userName password winner).1.1

/-! ## Shared helper lemmas -/

/-- Appending the ".pub" suffix always changes a path. -/
theorem append_pub_ne (path : String) : path ++ ".pub" ≠ path := by
  intro h
  have hlen := congrArg String.length h
  rw [String.length_append] at hlen
  have h4 : (".pub" : String).length = 4 := rfl
  omega

/-- Network requests write nothing to disk. -/
theorem writesOf_netRequests (reqs : List HttpRequest) :
    writesOf (reqs.map MainEvent.netRequest) = [] := by
  simp [writesOf, writeEntry]

/-- When the failover loop ends without an error, the winning candidate is
the last base URL tried and the returned certificate is exactly the ssh
certificate obtained from it. -/
theorem failover_winner_is_last_tried (net : Network) (signer : PrivateKey)
    (userName password : String) :
    ∀ targetUrls : List String,
      (getCertFromTargetUrls net signer userName password targetUrls).err = none →
      (getCertFromTargetUrls net signer userName password targetUrls).tried ≠ [] ∧
      lastTriedSsh net signer userName password
        (getCertFromTargetUrls net signer userName password targetUrls).tried =
      (getCertFromTargetUrls net signer userName password targetUrls).cert := by
  intro targetUrls
  induction targetUrls with
  | nil => intro h; simp [getCertFromTargetUrls] at h
  | cons b rest ih =>
    intro h
    rcases hPair : (getCertsFromServer net signer userName password b).1.2.2 with _ | e
    · simp [getCertFromTargetUrls, hPair, lastTriedSsh]
    · simp only [getCertFromTargetUrls, hPair] at h ⊢
      obtain ⟨hne, hlast⟩ := ih h
      rcases htried : (getCertFromTargetUrls net signer userName password rest).tried
        with _ | ⟨y, ys⟩
      · exact absurd htried hne
      · constructor
        · simp
        · rw [htried] at hlast
          simpa [lastTriedSsh, List.getLast?_cons_cons] using hlast

/-! ## Concrete fixtures for the closed theorems -/

/-- A concrete key used by the concrete scenarios. -/
def pk0 : PrivateKey :=
  { pkcs1Pem := "PRIVPEM", pkixPem := "PKIXPEM", sshAuthorizedKey := "SSHPUB" }

/-- Scenario for C1: candidate a logs in fine and serves the x509
certificate, but answers the ssh certgen request with status 500;
candidate b succeeds fully. -/
def netC1 : Network := fun req =>
  if req.url = "https://a/api/v0/login" then
    DoResult.response { statusCode := 200, cookies := [{ name := "s", value := "1" }], body := "" }
  else if req.url = "https://a/certgen/user?type=x509" then
    DoResult.response { statusCode := 200, cookies := [], body := "X509A" }
  else if req.url = "https://a/certgen/user?type=ssh" then
    DoResult.response { statusCode := 500, cookies := [], body := "" }
  else if req.url = "https://b/api/v0/login" then
    DoResult.response { statusCode := 200, cookies := [{ name := "s", value := "2" }], body := "" }
  else if req.url = "https://b/certgen/user?type=x509" then
    DoResult.response { statusCode := 200, cookies := [], body := "X509B" }
  else if req.url = "https://b/certgen/user?type=ssh" then
    DoResult.response { statusCode := 200, cookies := [], body := "SSHB" }
  else
    DoResult.transportError "unreachable"

/-- Scenario for C2: candidate a answers the login with status 403,
candidate b succeeds fully, candidate c answers the login with 200 but
sets no cookie. -/
def netC2 : Network := fun req =>
  if req.url = "https://a/api/v0/login" then
    DoResult.response { statusCode := 403, cookies := [], body := "" }
  else if req.url = "https://b/api/v0/login" then
    DoResult.response { statusCode := 200, cookies := [{ name := "s", value := "2" }], body := "" }
  else if req.url = "https://b/certgen/user?type=x509" then
    DoResult.response { statusCode := 200, cookies := [], body := "X509B" }
  else if req.url = "https://b/certgen/user?type=ssh" then
    DoResult.response { statusCode := 200, cookies := [], body := "SSHB" }
  else if req.url = "https://c/api/v0/login" then
    DoResult.response { statusCode := 200, cookies := [], body := "" }
  else
    DoResult.transportError "unreachable"

/-! ## C1 -/

/-- C1: the claim states that when the SSH certificate request for
candidate i fails — non-success status or transport error — the failover
controller treats candidate i as failed and advances to candidate i+1.
This theorem exhibits the code's actual behaviour on a non-success
status: candidate a's ssh certgen request is answered with 500 (last
conjunct shows the response), yet the controller stops at candidate a
with no error and a nil certificate, never advancing to candidate b even
though b would succeed (next-to-last conjunct).  The cause is
doCertRequest's non-200 branch, which returns the stale nil error of the
successful client.Do call. -/
theorem c1_ssh_status_failure_halts_failover :
    (getCertFromTargetUrls netC1 pk0 "user" "pw" ["https://a", "https://b"]).cert = none ∧
    (getCertFromTargetUrls netC1 pk0 "user" "pw" ["https://a", "https://b"]).err = none ∧
    (getCertFromTargetUrls netC1 pk0 "user" "pw" ["https://a", "https://b"]).tried
      = ["https://a"] ∧
    (getCertsFromServer netC1 pk0 "user" "pw" "https://b").1
      = (some "SSHB", some "X509B", none) ∧
    netC1 (addCookies (createKeyBodyRequest "POST" "https://a/certgen/user?type=ssh"
        pk0.sshAuthorizedKey) [{ name := "s", value := "1" }])
      = DoResult.response { statusCode := 500, cookies := [], body := "" } := by
  decide

/-! ## C2 -/

/-- C2: the claim states that login succeeds exactly when the response has
status 200 and at least one cookie, and that when either condition fails
the candidate's attempt returns an error and the controller advances to
the next candidate.  This theorem exhibits the code's actual behaviour on
a 403 login (first conjunct shows the response): the attempt returns no
error at all (second conjunct, the stale nil error of getCertsFromServer's
non-200 branch), and the controller stops at candidate a with a nil
certificate instead of advancing to candidate b, which would succeed.
The missing-cookie condition does return an error as claimed (last
conjunct, candidate c). -/
theorem c2_login_status_failure_treated_as_success :
    netC2 (loginRequest "user" "pw" "https://a")
      = DoResult.response { statusCode := 403, cookies := [], body := "" } ∧
    (getCertsFromServer netC2 pk0 "user" "pw" "https://a").1 = (none, none, none) ∧
    (getCertFromTargetUrls netC2 pk0 "user" "pw" ["https://a", "https://b"]).tried
      = ["https://a"] ∧
    (getCertFromTargetUrls netC2 pk0 "user" "pw" ["https://a", "https://b"]).cert = none ∧
    (getCertsFromServer netC2 pk0 "user" "pw" "https://b").1
      = (some "SSHB", some "X509B", none) ∧
    (getCertsFromServer netC2 pk0 "user" "pw" "https://c").1
      = (none, none, some "No cookies from login") := by
  decide

/-! ## C3 -/

/-- Scenario for the C3 counterexample: candidate a logs in fine, the
x509 certgen request hits a transport error, the ssh certgen request
would succeed. -/
def netC3 : Network := fun req =>
  if req.url = "https://a/api/v0/login" then
    DoResult.response { statusCode := 200, cookies := [{ name := "s", value := "1" }], body := "" }
  else if req.url = "https://a/certgen/user?type=x509" then
    DoResult.transportError "x509 endpoint unreachable"
  else if req.url = "https://a/certgen/user?type=ssh" then
    DoResult.response { statusCode := 200, cookies := [], body := "SSHA" }
  else
    DoResult.transportError "unreachable"

/-- C3, counterexample: the claim states that a failure of the X.509
request — non-success status or transport error — never fails the
candidate and the SSH request is still made.  Under netC3 the x509
request hits a transport error: the candidate's attempt returns that
error (first conjunct), only the login and x509 requests were issued — no
ssh request was made (second conjunct) — and the failover over this single
candidate fails (last two conjuncts), even though the ssh certgen
endpoint would have answered 200 with a certificate (third conjunct). -/
theorem c3_x509_transport_error_fails_candidate :
    (getCertsFromServer netC3 pk0 "user" "pw" "https://a").1
      = (none, none, some "x509 endpoint unreachable") ∧
    (getCertsFromServer netC3 pk0 "user" "pw" "https://a").2
      = [loginRequest "user" "pw" "https://a",
         addCookies (createKeyBodyRequest "POST" "https://a/certgen/user?type=x509"
           pk0.pkixPem) [{ name := "s", value := "1" }]] ∧
    netC3 (addCookies (createKeyBodyRequest "POST" "https://a/certgen/user?type=ssh"
        pk0.sshAuthorizedKey) [{ name := "s", value := "1" }])
      = DoResult.response { statusCode := 200, cookies := [], body := "SSHA" } ∧
    (getCertFromTargetUrls netC3 pk0 "user" "pw" ["https://a"]).cert = none ∧
    (getCertFromTargetUrls netC3 pk0 "user" "pw" ["https://a"]).err
      = some "Failed to get creds" := by
  decide

/-- C3, amended: for every candidate whose login succeeds, a non-success
STATUS on the X.509 certificate request does not fail the candidate — the
SSH request is still made (second conjunct) and the candidate succeeds if
the SSH request succeeds (first and last conjuncts); a transport error on
the X.509 request, by contrast, fails the candidate (see the
counterexample). -/
theorem c3_x509_status_failure_tolerated (net : Network) (signer : PrivateKey)
    (userName password baseUrl : String) (r rx rs : HttpResponse)
    (hl : net (loginRequest userName password baseUrl) = DoResult.response r)
    (h200 : r.statusCode = 200)
    (hck : 1 ≤ r.cookies.length)
    (hx : net (addCookies (createKeyBodyRequest "POST"
            (baseUrl ++ "/certgen/" ++ userName ++ "?type=x509") signer.pkixPem) r.cookies)
          = DoResult.response rx)
    (hxs : rx.statusCode ≠ 200)
    (hs : net (addCookies (createKeyBodyRequest "POST"
            (baseUrl ++ "/certgen/" ++ userName ++ "?type=ssh") signer.sshAuthorizedKey)
            r.cookies)
          = DoResult.response rs)
    (hss : rs.statusCode = 200) :
    (getCertsFromServer net signer userName password baseUrl).1
      = (some rs.body, none, none) ∧
    (addCookies (createKeyBodyRequest "POST"
        (baseUrl ++ "/certgen/" ++ userName ++ "?type=ssh") signer.sshAuthorizedKey)
        r.cookies)
      ∈ (getCertsFromServer net signer userName password baseUrl).2 ∧
    (getCertFromTargetUrls net signer userName password [baseUrl]).cert = some rs.body ∧
    (getCertFromTargetUrls net signer userName password [baseUrl]).err = none := by
  have hck2 : ¬ (r.cookies.length < 1) := by omega
  have hmain : (getCertsFromServer net signer userName password baseUrl).1
      = (some rs.body, none, none) := by
    simp [getCertsFromServer, doCertRequest, hl, h200, hck2, hx, hs, hss, hxs]
  refine ⟨hmain, ?_, ?_, ?_⟩
  · simp [getCertsFromServer, doCertRequest, hl, h200, hck2, hx, hs, hss, hxs]
  · simp [getCertFromTargetUrls, hmain]
  · simp [getCertFromTargetUrls, hmain]

/-- Witness scenario for the amended C3: login fine, x509 certgen answers
404, ssh certgen answers 200. -/
def netC3a : Network := fun req =>
  if req.url = "https://a/api/v0/login" then
    DoResult.response { statusCode := 200, cookies := [{ name := "s", value := "1" }], body := "" }
  else if req.url = "https://a/certgen/user?type=x509" then
    DoResult.response { statusCode := 404, cookies := [], body := "" }
  else if req.url = "https://a/certgen/user?type=ssh" then
    DoResult.response { statusCode := 200, cookies := [], body := "SSHA" }
  else
    DoResult.transportError "unreachable"

/-- Witness for the amended C3, at the concrete scenario netC3a. -/
theorem c3_x509_status_failure_tolerated_witness :
    (getCertsFromServer netC3a pk0 "user" "pw" "https://a").1
      = (some "SSHA", none, none) ∧
    (addCookies (createKeyBodyRequest "POST" "https://a/certgen/user?type=ssh"
        pk0.sshAuthorizedKey) [{ name := "s", value := "1" }])
      ∈ (getCertsFromServer netC3a pk0 "user" "pw" "https://a").2 ∧
    (getCertFromTargetUrls netC3a pk0 "user" "pw" ["https://a"]).cert = some "SSHA" ∧
    (getCertFromTargetUrls netC3a pk0 "user" "pw" ["https://a"]).err = none :=
  c3_x509_status_failure_tolerated netC3a pk0 "user" "pw" "https://a"
    { statusCode := 200, cookies := [{ name := "s", value := "1" }], body := "" }
    { statusCode := 404, cookies := [], body := "" }
    { statusCode := 200, cookies := [], body := "SSHA" }
    (by decide) (by decide) (by decide) (by decide) (by decide) (by decide) (by decide)

/-! ## C4 -/

/-- Scenario for C4: candidate a answers the login with status 500;
candidate b — the first candidate whose login and ssh retrieval both
succeed — succeeds fully. -/
def netC4 : Network := fun req =>
  if req.url = "https://a/api/v0/login" then
    DoResult.response { statusCode := 500, cookies := [], body := "" }
  else if req.url = "https://b/api/v0/login" then
    DoResult.response { statusCode := 200, cookies := [{ name := "s", value := "2" }], body := "" }
  else if req.url = "https://b/certgen/user?type=x509" then
    DoResult.response { statusCode := 200, cookies := [], body := "X509B" }
  else if req.url = "https://b/certgen/user?type=ssh" then
    DoResult.response { statusCode := 200, cookies := [], body := "SSHB" }
  else
    DoResult.transportError "unreachable"

/-- C4: the claim states that when candidate k is the first whose login
and SSH retrieval both succeed, the controller contacts candidates 1..k
in order, returns candidate k's certificate, and never contacts later
candidates.  Under netC4, candidate b (k = 2) is the first that fully
succeeds (last conjunct), yet the controller issues only candidate a's
login request (first conjunct), stops at candidate a (second conjunct),
and returns no certificate and no error (third and fourth conjuncts):
candidate b is never contacted and its certificate is not returned,
because a's non-200 login returned the stale nil error. -/
theorem c4_first_success_candidate_never_contacted :
    (getCertFromTargetUrls netC4 pk0 "user" "pw" ["https://a", "https://b"]).requests
      = [loginRequest "user" "pw" "https://a"] ∧
    (getCertFromTargetUrls netC4 pk0 "user" "pw" ["https://a", "https://b"]).tried
      = ["https://a"] ∧
    (getCertFromTargetUrls netC4 pk0 "user" "pw" ["https://a", "https://b"]).cert = none ∧
    (getCertFromTargetUrls netC4 pk0 "user" "pw" ["https://a", "https://b"]).err = none ∧
    (getCertsFromServer netC4 pk0 "user" "pw" "https://b").1
      = (some "SSHB", some "X509B", none) := by
  decide

/-! ## C5 -/

/-- Scenario for the C5 counterexample: candidate a answers the login
with 403 (yielding no certificate and — through the stale nil error — no
error), candidate b is unreachable. -/
def netC5 : Network := fun req =>
  if req.url = "https://a/api/v0/login" then
    DoResult.response { statusCode := 403, cookies := [], body := "" }
  else
    DoResult.transportError "connection refused"

/-- C5, counterexample: the claim states that when no candidate yields an
SSH certificate the controller returns a failure only after attempting
every candidate in order, aggregating the per-candidate attempts.  Under
netC5 neither candidate yields an SSH certificate (first two conjuncts),
yet the controller stops after trying only candidate a (third conjunct)
and returns no failure at all — a nil error with a nil certificate
(last two conjuncts) — rather than a failure aggregating two attempts. -/
theorem c5_early_stop_without_aggregate :
    (getCertsFromServer netC5 pk0 "user" "pw" "https://a").1.1 = none ∧
    (getCertsFromServer netC5 pk0 "user" "pw" "https://b").1.1 = none ∧
    (getCertFromTargetUrls netC5 pk0 "user" "pw" ["https://a", "https://b"]).tried
      = ["https://a"] ∧
    (getCertFromTargetUrls netC5 pk0 "user" "pw" ["https://a", "https://b"]).err = none ∧
    (getCertFromTargetUrls netC5 pk0 "user" "pw" ["https://a", "https://b"]).cert
      = none := by
  decide

/-- C5, amended: for every candidate list in which every candidate's
attempt returns an error (transport failure, missing cookies, or a
certgen transport failure — the non-200 cases return no error and are
excluded), the controller returns a failure only after attempting every
candidate in order, and the returned failure is the fixed error "Failed
to get creds" rather than an aggregation of the per-candidate attempts. -/
theorem c5_all_error_attempts_exhaust_in_order (net : Network) (signer : PrivateKey)
    (userName password : String) (targetUrls : List String)
    (h : ∀ baseUrl ∈ targetUrls,
      ((getCertsFromServer net signer userName password baseUrl).1.2.2).isSome = true) :
    (getCertFromTargetUrls net signer userName password targetUrls).cert = none ∧
    (getCertFromTargetUrls net signer userName password targetUrls).err
      = some "Failed to get creds" ∧
    (getCertFromTargetUrls net signer userName password targetUrls).tried = targetUrls := by
  induction targetUrls with
  | nil => simp [getCertFromTargetUrls]
  | cons b rest ih =>
    have hb := h b (List.mem_cons_self b rest)
    obtain ⟨e, he⟩ := Option.isSome_iff_exists.mp hb
    have hrest := ih (fun x hx => h x (List.mem_cons_of_mem b hx))
    simp [getCertFromTargetUrls, he, hrest.1, hrest.2.1, hrest.2.2]

/-- Witness scenario for the amended C5: every endpoint is unreachable. -/
def netC5w : Network := fun _ => DoResult.transportError "connection refused"

/-- Witness for the amended C5, at the concrete scenario netC5w with two
candidates. -/
theorem c5_all_error_attempts_exhaust_in_order_witness :
    (getCertFromTargetUrls netC5w pk0 "user" "pw" ["https://a", "https://b"]).cert = none ∧
    (getCertFromTargetUrls netC5w pk0 "user" "pw" ["https://a", "https://b"]).err
      = some "Failed to get creds" ∧
    (getCertFromTargetUrls netC5w pk0 "user" "pw" ["https://a", "https://b"]).tried
      = ["https://a", "https://b"] :=
  c5_all_error_attempts_exhaust_in_order netC5w pk0 "user" "pw"
    ["https://a", "https://b"] (by decide)

/-! ## C6 -/

/-- Scenario for C6: the single candidate succeeds fully. -/
def netC6 : Network := fun req =>
  if req.url = "https://a/api/v0/login" then
    DoResult.response { statusCode := 200, cookies := [{ name := "s", value := "1" }], body := "" }
  else if req.url = "https://a/certgen/user?type=x509" then
    DoResult.response { statusCode := 200, cookies := [], body := "X509A" }
  else if req.url = "https://a/certgen/user?type=ssh" then
    DoResult.response { statusCode := 200, cookies := [], body := "SSHA" }
  else
    DoResult.transportError "unreachable"

/-- Environment for C6: everything succeeds except the final certificate
WriteFile, which fails with a disk-full error. -/
def envC6 : MainEnv :=
  { configSource := ConfigSource.parsed { Base := { Gen_Cert_URLS := "https://a" } }
    credsResult := Except.ok ("user", "pw")
    homeDir := "/home/u"
    umask := 0o022
    keyGen := Except.ok pk0
    net := netC6
    certWriteErr := some "no space left on device" }

/-- C6: the claim states that a failure writing the final certificate
file is fatal and the process terminates with non-zero status rather than
reporting success.  Under envC6 the certificate is obtained but the final
WriteFile fails; the run nevertheless logs "Success" (second conjunct,
logged before the write is even attempted), performs the write whose
error is assigned and never checked (third conjunct), and main returns
normally, i.e. the process exits with status 0 (first conjunct). -/
theorem c6_cert_write_failure_ignored :
    (mainRun envC6).1 = Outcome.normalExit ∧
    MainEvent.logSuccess ∈ (mainRun envC6).2 ∧
    MainEvent.writeResult "/home/u/.ssh/fubar-cert.pub" (some "no space left on device")
      ∈ (mainRun envC6).2 := by
  decide

/-! ## C7 -/

/-- C7, counterexample: the claim states the private key file is never
group- or world-readable at any point after its creation.  With the
common umask 0o022, immediately after the os.Create step (the first three
operations of the trace: the two removes and the create) the file exists
with mode 0o644 — group- and world-readable — although no bytes have been
written to it yet; the chmod to 0o600 only happens afterwards. -/
theorem c7_readable_window_after_create :
    ((genKeyPair (Except.ok pk0) 0o022 "/home/u/.ssh/fubar").2).take 3
      = [FsOp.remove "/home/u/.ssh/fubar",
         FsOp.remove "/home/u/.ssh/fubar.pub",
         FsOp.create "/home/u/.ssh/fubar" 0o644] ∧
    modeAfter "/home/u/.ssh/fubar"
      (((genKeyPair (Except.ok pk0) 0o022 "/home/u/.ssh/fubar").2).take 3) = some 0o644 ∧
    groupOrWorldReadable 0o644 = true ∧
    hasWrittenBytes "/home/u/.ssh/fubar"
      (((genKeyPair (Except.ok pk0) 0o022 "/home/u/.ssh/fubar").2).take 3) = false := by
  decide

/-- C7, amended: for every generated key, umask and destination path, the
private key file's mode is 0600 — owner read/write only, in particular
not group- or world-readable — at every point of the trace at which the
file contains private-key bytes; equivalently, the chmod to 0600 happens
before any bytes are written and the mode never changes afterwards.
Private-key bytes are written (second conjunct).  Between creation and
the chmod, however, the empty file carries the os.Create mode 0666 masked
by the process umask and may be group- and world-readable (see the
counterexample). -/
theorem c7_mode_0600_whenever_bytes_present (key : PrivateKey) (umask : Nat)
    (path : String) :
    modeDiscipline path ((genKeyPair (Except.ok key) umask path).2) = true ∧
    hasWrittenBytes path ((genKeyPair (Except.ok key) umask path).2) = true := by
  constructor
  · simp [modeDiscipline, modeDisciplineFrom, genKeyPair, applyFsOp, isWriteTo,
      append_pub_ne path]
  · simp [hasWrittenBytes, genKeyPair, isWriteTo]

/-! ## C8 -/

/-- C8: every certificate request issued after a successful login is a
POST to baseUrl ++ "/certgen/" ++ identity ++ "?type=" ++ certType whose
multipart body holds the single file field "pubkeyfile" carrying the key
material (the PKIX PEM for x509, the SSH authorized-key line for ssh),
with every cookie of the login response attached; and when the response
has status 200 the result is exactly the raw response body.  The first
conjunct lists the requests issued (login, then x509, then ssh); the
second and third describe the two certificate requests in full; the
fourth gives the ssh result on status 200; the last gives the x509
result, exactly the raw x509 response body on status 200 and nil
otherwise. -/
theorem c8_cert_request_contract (net : Network) (signer : PrivateKey)
    (userName password baseUrl : String) (r rx rs : HttpResponse)
    (hl : net (loginRequest userName password baseUrl) = DoResult.response r)
    (h200 : r.statusCode = 200)
    (hck : 1 ≤ r.cookies.length)
    (hx : net (addCookies (createKeyBodyRequest "POST"
            (baseUrl ++ "/certgen/" ++ userName ++ "?type=x509") signer.pkixPem) r.cookies)
          = DoResult.response rx)
    (hs : net (addCookies (createKeyBodyRequest "POST"
            (baseUrl ++ "/certgen/" ++ userName ++ "?type=ssh") signer.sshAuthorizedKey)
            r.cookies)
          = DoResult.response rs)
    (hss : rs.statusCode = 200) :
    (getCertsFromServer net signer userName password baseUrl).2
      = [loginRequest userName password baseUrl,
         addCookies (createKeyBodyRequest "POST"
           (baseUrl ++ "/certgen/" ++ userName ++ "?type=x509") signer.pkixPem) r.cookies,
         addCookies (createKeyBodyRequest "POST"
           (baseUrl ++ "/certgen/" ++ userName ++ "?type=ssh") signer.sshAuthorizedKey)
           r.cookies] ∧
    addCookies (createKeyBodyRequest "POST"
        (baseUrl ++ "/certgen/" ++ userName ++ "?type=x509") signer.pkixPem) r.cookies
      = { method := "POST"
          url := baseUrl ++ "/certgen/" ++ userName ++ "?type=" ++ "x509"
          contentType := "multipart/form-data"
          formFile := some ("pubkeyfile", "somefilename.pub", signer.pkixPem)
          basicAuth := none
          cookies := r.cookies } ∧
    addCookies (createKeyBodyRequest "POST"
        (baseUrl ++ "/certgen/" ++ userName ++ "?type=ssh") signer.sshAuthorizedKey)
        r.cookies
      = { method := "POST"
          url := baseUrl ++ "/certgen/" ++ userName ++ "?type=" ++ "ssh"
          contentType := "multipart/form-data"
          formFile := some ("pubkeyfile", "somefilename.pub", signer.sshAuthorizedKey)
          basicAuth := none
          cookies := r.cookies } ∧
    (getCertsFromServer net signer userName password baseUrl).1.1 = some rs.body ∧
    (getCertsFromServer net signer userName password baseUrl).1.2.1
      = (if rx.statusCode = 200 then some rx.body else none) := by
  have hck2 : ¬ (r.cookies.length < 1) := by omega
  have hurlx : baseUrl ++ "/certgen/" ++ userName ++ "?type=x509"
      = baseUrl ++ "/certgen/" ++ userName ++ "?type=" ++ "x509" := by
    rw [String.append_assoc (baseUrl ++ "/certgen/" ++ userName) "?type=" "x509"]
    rfl
  have hurls : baseUrl ++ "/certgen/" ++ userName ++ "?type=ssh"
      = baseUrl ++ "/certgen/" ++ userName ++ "?type=" ++ "ssh" := by
    rw [String.append_assoc (baseUrl ++ "/certgen/" ++ userName) "?type=" "ssh"]
    rfl
  have hboth : (getCertsFromServer net signer userName password baseUrl).2
      = [loginRequest userName password baseUrl,
         addCookies (createKeyBodyRequest "POST"
           (baseUrl ++ "/certgen/" ++ userName ++ "?type=x509") signer.pkixPem) r.cookies,
         addCookies (createKeyBodyRequest "POST"
           (baseUrl ++ "/certgen/" ++ userName ++ "?type=ssh") signer.sshAuthorizedKey)
           r.cookies] ∧
      (getCertsFromServer net signer userName password baseUrl).1.1 = some rs.body ∧
      (getCertsFromServer net signer userName password baseUrl).1.2.1
        = (if rx.statusCode = 200 then some rx.body else none) := by
    by_cases hrx : rx.statusCode = 200 <;>
      simp [getCertsFromServer, doCertRequest, hl, h200, hck2, hx, hs, hss, hrx]
  refine ⟨hboth.1, ?_, ?_, hboth.2.1, hboth.2.2⟩
  · simp [addCookies, createKeyBodyRequest, hurlx]
  · simp [addCookies, createKeyBodyRequest, hurls]

/-- Witness scenario for C8: a fully successful candidate. -/
def netC8 : Network := fun req =>
  if req.url = "https://a/api/v0/login" then
    DoResult.response { statusCode := 200, cookies := [{ name := "s", value := "1" }], body := "" }
  else if req.url = "https://a/certgen/user?type=x509" then
    DoResult.response { statusCode := 200, cookies := [], body := "X509CERT" }
  else if req.url = "https://a/certgen/user?type=ssh" then
    DoResult.response { statusCode := 200, cookies := [], body := "SSHCERT" }
  else
    DoResult.transportError "unreachable"

/-- Witness for C8, at the concrete scenario netC8. -/
theorem c8_cert_request_contract_witness :
    (getCertsFromServer netC8 pk0 "user" "pw" "https://a").2
      = [loginRequest "user" "pw" "https://a",
         addCookies (createKeyBodyRequest "POST" "https://a/certgen/user?type=x509"
           pk0.pkixPem) [{ name := "s", value := "1" }],
         addCookies (createKeyBodyRequest "POST" "https://a/certgen/user?type=ssh"
           pk0.sshAuthorizedKey) [{ name := "s", value := "1" }]] ∧
    addCookies (createKeyBodyRequest "POST" "https://a/certgen/user?type=x509"
        pk0.pkixPem) [{ name := "s", value := "1" }]
      = { method := "POST"
          url := "https://a/certgen/user?type=x509"
          contentType := "multipart/form-data"
          formFile := some ("pubkeyfile", "somefilename.pub", pk0.pkixPem)
          basicAuth := none
          cookies := [{ name := "s", value := "1" }] } ∧
    addCookies (createKeyBodyRequest "POST" "https://a/certgen/user?type=ssh"
        pk0.sshAuthorizedKey) [{ name := "s", value := "1" }]
      = { method := "POST"
          url := "https://a/certgen/user?type=ssh"
          contentType := "multipart/form-data"
          formFile := some ("pubkeyfile", "somefilename.pub", pk0.sshAuthorizedKey)
          basicAuth := none
          cookies := [{ name := "s", value := "1" }] } ∧
    (getCertsFromServer netC8 pk0 "user" "pw" "https://a").1.1 = some "SSHCERT" ∧
    (getCertsFromServer netC8 pk0 "user" "pw" "https://a").1.2.1 = some "X509CERT" :=
  c8_cert_request_contract netC8 pk0 "user" "pw" "https://a"
    { statusCode := 200, cookies := [{ name := "s", value := "1" }], body := "" }
    { statusCode := 200, cookies := [], body := "X509CERT" }
    { statusCode := 200, cookies := [], body := "SSHCERT" }
    (by decide) (by decide) (by decide) (by decide) (by decide) (by decide)

/-! ## C9 -/

/-- C9: if the configuration is missing, unreadable, unparsable, or
supplies an empty endpoint-URL list, the run terminates with non-zero
status (main panics on the configuration error) with an empty event
trace: no network request is issued and the key pair generation is never
reached. -/
theorem c9_bad_config_no_activity (env : MainEnv)
    (h : configBad env.configSource = true) :
    (mainRun env).2 = [] ∧ isFatalOutcome (mainRun env).1 = true := by
  rcases hcs : env.configSource with _ | _ | _ | config
  · simp [mainRun, loadVerifyConfigFile, hcs, isFatalOutcome]
  · simp [mainRun, loadVerifyConfigFile, hcs, isFatalOutcome]
  · simp [mainRun, loadVerifyConfigFile, hcs, isFatalOutcome]
  · rw [hcs] at h
    simp only [configBad, decide_eq_true_eq] at h
    simp [mainRun, loadVerifyConfigFile, hcs, h, isFatalOutcome]

/-- Witness environment for C9: the configuration file is missing. -/
def envC9 : MainEnv :=
  { configSource := ConfigSource.missing
    credsResult := Except.ok ("user", "pw")
    homeDir := "/home/u"
    umask := 0o022
    keyGen := Except.ok pk0
    net := fun _ => DoResult.transportError "unreachable"
    certWriteErr := none }

/-- Witness for C9, at the concrete environment envC9. -/
theorem c9_bad_config_no_activity_witness :
    (mainRun envC9).2 = [] ∧ isFatalOutcome (mainRun envC9).1 = true :=
  c9_bad_config_no_activity envC9 (by decide)

/-! ## C10 -/

/-- C10: on every successful run, the only files written are the private
key (PKCS1 PEM), the public key (SSH authorized-key line), and the
certificate file at privateKeyPath ++ "-cert.pub", which receives exactly
the certificate returned by the failover controller; that certificate is
the ssh certificate of the winning (last tried) candidate — the x509
certificate retrieved alongside it is dropped by getCertFromTargetUrls
and appears in no write. -/
theorem c10_only_ssh_cert_persisted (env : MainEnv) (config : AppConfigFile)
    (userName password : String) (signer : PrivateKey) (certBytes : String)
    (hcfg : loadVerifyConfigFile env.configSource = Except.ok config)
    (hcreds : env.credsResult = Except.ok (userName, password))
    (hkey : env.keyGen = Except.ok signer)
    (herr : (getCertFromTargetUrls env.net signer userName password
              (splitOnComma config.Base.Gen_Cert_URLS)).err = none)
    (hcert : (getCertFromTargetUrls env.net signer userName password
              (splitOnComma config.Base.Gen_Cert_URLS)).cert = some certBytes) :
    writesOf (mainRun env).2 =
      [(env.homeDir ++ "/.ssh/" ++ "fubar", signer.pkcs1Pem),
       (env.homeDir ++ "/.ssh/" ++ "fubar" ++ ".pub", signer.sshAuthorizedKey),
       (env.homeDir ++ "/.ssh/" ++ "fubar" ++ "-cert.pub", certBytes)] ∧
    lastTriedSsh env.net signer userName password
      (getCertFromTargetUrls env.net signer userName password
        (splitOnComma config.Base.Gen_Cert_URLS)).tried = some certBytes := by
  constructor
  · simp [mainRun, hcfg, hcreds, hkey, genKeyPair, herr, hcert, writesOf, writeEntry,
      List.filterMap_append, writesOf_netRequests]
  · have hlast := (failover_winner_is_last_tried env.net signer userName password
      (splitOnComma config.Base.Gen_Cert_URLS) herr).2
    rw [hlast, hcert]

/-- Witness scenario for C10: a fully successful candidate. -/
def netC10 : Network := fun req =>
  if req.url = "https://a/api/v0/login" then
    DoResult.response { statusCode := 200, cookies := [{ name := "s", value := "1" }], body := "" }
  else if req.url = "https://a/certgen/user?type=x509" then
    DoResult.response { statusCode := 200, cookies := [], body := "X509CERT" }
  else if req.url = "https://a/certgen/user?type=ssh" then
    DoResult.response { statusCode := 200, cookies := [], body := "SSHCERT" }
  else
    DoResult.transportError "unreachable"

/-- Witness environment for C10: everything succeeds. -/
def envC10 : MainEnv :=
  { configSource := ConfigSource.parsed { Base := { Gen_Cert_URLS := "https://a" } }
    credsResult := Except.ok ("user", "pw")
    homeDir := "/home/u"
    umask := 0o022
    keyGen := Except.ok pk0
    net := netC10
    certWriteErr := none }

/-- Witness for C10, at the concrete environment envC10. -/
theorem c10_only_ssh_cert_persisted_witness :
    writesOf (mainRun envC10).2 =
      [("/home/u/.ssh/fubar", pk0.pkcs1Pem),
       ("/home/u/.ssh/fubar.pub", pk0.sshAuthorizedKey),
       ("/home/u/.ssh/fubar-cert.pub", "SSHCERT")] ∧
    lastTriedSsh envC10.net pk0 "user" "pw"
      (getCertFromTargetUrls envC10.net pk0 "user" "pw"
        (splitOnComma "https://a")).tried = some "SSHCERT" :=
  c10_only_ssh_cert_persisted envC10 { Base := { Gen_Cert_URLS := "https://a" } }
    "user" "pw" pk0 "SSHCERT" rfl rfl rfl (by decide) (by decide)
